import Mathlib

/-
Verification development for the pandlas repository (src/pandlas).

Embedding conventions.

Timestamps: a pd.Timestamp / datetime64[ns] value is its internal signed
64-bit count of nanoseconds since the Unix epoch, modelled as an Int.

Python floats: utils.timestamp2long computes the nanosecond offset with
IEEE-754 binary64 arithmetic (the literals 1e9 and 1e3 make the whole
expression float).  Every float produced there has an integer value, so
each float operation is modelled exactly: IEEE addition and
multiplication are correctly rounded, hence an operation whose exact
integer result is n yields the float of value rnEvenI n, rounding n to
53 significant bits with round-to-nearest, ties-to-even.  rnEvenI below
implements exactly that rounding on integers; it is the identity below
2 to the 53rd.

pandas checked arithmetic: subtracting a Timestamp (or the day-floored
start date) from a timestamp raises a pandas out-of-bounds / overflow
condition when the difference leaves the signed 64-bit nanosecond range
of pd.Timedelta.  All such raised conditions are modelled by the single
error value PyErr.overflowError; the remaining Python exception classes
that the translated code can raise get one PyErr constructor each.
-/

def nsPerDay : Int := 86400000000000

def maxInt64 : Int := 9223372036854775807

def minInt64 : Int := -9223372036854775808

/-- Error outcomes of the translated Python code, one constructor per
exception class that the modelled paths can raise. -/
inductive PyErr where
  | overflowError
  | typeError
  | attributeError
  | valueError
  | indexError
  | keyError
  deriving DecidableEq, Repr

/-- Midnight of the calendar day of a timestamp: pd.Timestamp.floor with
day frequency, and also the numpy cast of datetime64[ns] to
datetime64[D]; both floor toward minus infinity. -/
def floorDay (t : Int) : Int := nsPerDay * (t / nsPerDay)

/-- Time of day of a timestamp in nanoseconds (nonnegative). -/
def tod (t : Int) : Int := t % nsPerDay

/-- pd.Timestamp.hour for a naive timestamp. -/
def hourOf (t : Int) : Int := tod t / 3600000000000

/-- pd.Timestamp.minute. -/
def minuteOf (t : Int) : Int := tod t / 60000000000 % 60

/-- pd.Timestamp.second. -/
def secondOf (t : Int) : Int := tod t / 1000000000 % 60

/-- pd.Timestamp.microsecond. -/
def microOf (t : Int) : Int := tod t / 1000 % 1000000

/-- pd.Timestamp.nanosecond. -/
def nanoOf (t : Int) : Int := tod t % 1000

/-- Number of halvings of n needed to go below 2 to the 53rd; fuel-based
so that the kernel can evaluate it.  128 units of fuel cover every
integer that the translated code can produce. -/
def ulpSteps : Nat → Nat → Nat
  | 0, _ => 0
  | f + 1, n => if n < 2 ^ 53 then 0 else ulpSteps f (n / 2) + 1

/-- Round a nonnegative integer to 53 significant bits, round to
nearest, ties to even: the value of the IEEE-754 binary64 float nearest
to n.  Exact for n below 2 to the 53rd. -/
def rnEvenNat (n : Nat) : Nat :=
  let k := ulpSteps 128 n
  if k = 0 then n
  else
    let p := 2 ^ k
    let q := n / p
    let r := n % p
    if r < p / 2 then q * p
    else if p / 2 < r then (q + 1) * p
    else if q % 2 = 0 then q * p else (q + 1) * p

/-- Round an integer to the value of the nearest binary64 float; IEEE
rounding is symmetric around zero. -/
def rnEvenI (x : Int) : Int :=
  if 0 ≤ x then ((rnEvenNat x.toNat : Nat) : Int)
  else -((rnEvenNat (-x).toNat : Nat) : Int)

theorem ulpSteps_eq_zero (f n : Nat) (h : n < 2 ^ 53) : ulpSteps f n = 0 := by
  cases f with
  | zero => rfl
  | succ f =>
    unfold ulpSteps
    rw [if_pos h]

theorem rnEvenNat_eq_self (n : Nat) (h : n < 2 ^ 53) : rnEvenNat n = n := by
  unfold rnEvenNat
  rw [ulpSteps_eq_zero 128 n h]
  simp

theorem rnEvenI_eq_self (x : Int) (h0 : 0 ≤ x) (h : x < 2 ^ 53) : rnEvenI x = x := by
  unfold rnEvenI
  rw [if_pos h0]
  have hx : x.toNat < 2 ^ 53 := by omega
  rw [rnEvenNat_eq_self x.toNat hx]
  omega

/-- Float value of the expression
(hour * 3600 + minute * 60 + second) * 1e9 + microsecond * 1e3 + nanosecond
from utils.timestamp2long, with every float operation correctly
rounded.  The integer products are exact Python int arithmetic; each
multiplication by a float literal and each float addition rounds. -/
def nsInDayF (t : Int) : Int :=
  rnEvenI (rnEvenI (rnEvenI ((hourOf t * 3600 + minuteOf t * 60 + secondOf t) * 1000000000)
    + rnEvenI (microOf t * 1000)) + nanoOf t)

/-- The pd.Timedelta days component of (timestamp - start_date.floor),
which floors toward minus infinity. -/
def ddaysOf (t sf : Int) : Int := (t - sf) / nsPerDay

/-- Float value of ddays * 24 * 3600 * 1e9: the int product ddays * 86400
is converted to float (rounding) and multiplied by 1e9 (rounding). -/
def dayNsF (dd : Int) : Int := rnEvenI (rnEvenI (dd * 86400) * 1000000000)

/-- Float value of the full expression ns_in_day + ddays * 24 * 3600 * 1e9. -/
def longF (t sf : Int) : Int := rnEvenI (nsInDayF t + dayNsF (ddaysOf t sf))

/-- utils.timestamp2long on a scalar pd.Timestamp.  With no start date
the timestamp itself is taken as start date.  The subtraction
timestamp - start_date.floor raises the pandas overflow condition when
the difference leaves the pd.Timedelta range; np.int64 applied to an
out-of-int64-range float raises OverflowError; the explicit final check
compares the already-converted int64 with 2 to the 63rd. -/
def timestamp2longScalar (t : Int) (startDate : Option Int) : Except PyErr Int :=
  let s := startDate.getD t
  let sf := floorDay s
  if t - sf > maxInt64 ∨ t - sf < -maxInt64 then .error .overflowError
  else
    let lf := longF t sf
    if lf > maxInt64 ∨ lf < minInt64 then .error .overflowError
    else if lf > 9223372036854775808 then .error .overflowError
    else .ok lf

/-- numpy astype from float64 to int64 on an out-of-range finite float:
no exception, the cast produces the int64 minimum (x86 cvttsd2si). -/
def wrapCastInt64 (x : Int) : Int :=
  if x > maxInt64 ∨ x < minInt64 then minInt64 else x

/-- utils.timestamp2long on a pd.DatetimeIndex.  With no start date the
first element is taken as start date (IndexError on an empty index).
The vectorised subtraction raises the pandas overflow condition if any
element of the difference leaves the int64 range; astype to int64 then
wraps silently, and the final check (comparing int64 values with 2 to
the 63rd) can never fire. -/
def timestamp2longSeq (ts : List Int) (startDate : Option Int) : Except PyErr (List Int) :=
  let s? := match startDate with
    | some s => some s
    | none => ts.head?
  match s? with
  | none => .error .indexError
  | some s =>
    let sf := floorDay s
    if ts.any (fun t => t - sf > maxInt64 ∨ t - sf < -maxInt64) then .error .overflowError
    else
      let longs := ts.map (fun t => wrapCastInt64 (longF t sf))
      if longs.any (fun v => v > 9223372036854775808) then .error .overflowError
      else .ok longs

/-- utils.long2timestamp: interpret the int64 as nanoseconds and add it
to the start date cast down to day granularity (datetime64[D], which
floors). -/
def long2timestamp (l : Int) (startDate : Int) : Int := floorDay startDate + l

/-- utils.long2timestamp applied elementwise to an array of int64. -/
def long2timestampSeq (ls : List Int) (startDate : Int) : List Int :=
  ls.map (fun l => long2timestamp l startDate)

theorem tod_bounds (t : Int) : 0 ≤ tod t ∧ tod t < 86400000000000 := by
  unfold tod nsPerDay
  constructor <;> omega

theorem nsInDayF_eq (t : Int) : nsInDayF t = tod t := by
  obtain ⟨h0, h1⟩ := tod_bounds t
  unfold nsInDayF
  have hh : hourOf t = tod t / 3600000000000 := rfl
  have hm : minuteOf t = tod t / 60000000000 % 60 := rfl
  have hs : secondOf t = tod t / 1000000000 % 60 := rfl
  have hu : microOf t = tod t / 1000 % 1000000 := rfl
  have hn : nanoOf t = tod t % 1000 := rfl
  set r := tod t with hr
  have ha : (hourOf t * 3600 + minuteOf t * 60 + secondOf t) * 1000000000
      = r / 1000000000 * 1000000000 := by
    rw [hh, hm, hs]
    omega
  have hb : microOf t * 1000 = r / 1000 % 1000000 * 1000 := by
    rw [hu]
  rw [ha, hb]
  have e1 : rnEvenI (r / 1000000000 * 1000000000) = r / 1000000000 * 1000000000 := by
    apply rnEvenI_eq_self <;> omega
  have e2 : rnEvenI (r / 1000 % 1000000 * 1000) = r / 1000 % 1000000 * 1000 := by
    apply rnEvenI_eq_self <;> omega
  rw [e1, e2]
  have e3 : rnEvenI (r / 1000000000 * 1000000000 + r / 1000 % 1000000 * 1000)
      = r / 1000000000 * 1000000000 + r / 1000 % 1000000 * 1000 := by
    apply rnEvenI_eq_self <;> omega
  rw [e3, hn]
  have e4 : rnEvenI (r / 1000000000 * 1000000000 + r / 1000 % 1000000 * 1000 + r % 1000)
      = r / 1000000000 * 1000000000 + r / 1000 % 1000000 * 1000 + r % 1000 := by
    apply rnEvenI_eq_self <;> omega
  rw [e4]
  omega

theorem floorDay_mod (s : Int) : floorDay s % nsPerDay = 0 := by
  unfold floorDay nsPerDay
  omega

/-- When the true nanosecond offset fits in 53 bits, every float step of
the encoder is exact and the encoded value is exactly the offset. -/
theorem longF_exact (t s : Int) (h0 : 0 ≤ t - floorDay s) (h1 : t - floorDay s < 2 ^ 53) :
    longF t (floorDay s) = t - floorDay s := by
  have hfd : floorDay s % nsPerDay = 0 := floorDay_mod s
  obtain ⟨ht0, ht1⟩ := tod_bounds t
  unfold longF
  rw [nsInDayF_eq]
  have hdd : ddaysOf t (floorDay s) = (t - floorDay s) / nsPerDay := rfl
  have htod : tod t = (t - floorDay s) % nsPerDay := by
    unfold tod nsPerDay at *
    unfold floorDay nsPerDay at *
    omega
  set d := t - floorDay s with hd
  have hq0 : 0 ≤ d / nsPerDay := by
    unfold nsPerDay
    omega
  have hq1 : d / nsPerDay * 86400 < 2 ^ 53 := by
    unfold nsPerDay at *
    omega
  have e1 : rnEvenI (ddaysOf t (floorDay s) * 86400) = d / nsPerDay * 86400 := by
    rw [hdd]
    apply rnEvenI_eq_self <;> omega
  unfold dayNsF
  rw [e1]
  have hq2 : d / nsPerDay * 86400 * 1000000000 ≤ d := by
    unfold nsPerDay at *
    omega
  have e2 : rnEvenI (d / nsPerDay * 86400 * 1000000000) = d / nsPerDay * 86400 * 1000000000 := by
    apply rnEvenI_eq_self <;> omega
  rw [e2, htod]
  have e3 : rnEvenI (d % nsPerDay + d / nsPerDay * 86400 * 1000000000) = d := by
    have hsum : d % nsPerDay + d / nsPerDay * 86400 * 1000000000 = d := by
      unfold nsPerDay at *
      omega
    rw [hsum]
    apply rnEvenI_eq_self <;> omega
  exact e3

instance (priority := 100) {e a : Type} [DecidableEq e] [DecidableEq a] : DecidableEq (Except e a)
  | .ok x, .ok y =>
    if h : x = y then .isTrue (by rw [h]) else .isFalse (by intro hc; cases hc; exact h rfl)
  | .ok _, .error _ => .isFalse (by intro hc; cases hc)
  | .error _, .ok _ => .isFalse (by intro hc; cases hc)
  | .error x, .error y =>
    if h : x = y then .isTrue (by rw [h]) else .isFalse (by intro hc; cases hc; exact h rfl)

/-- C1: the claim states that for every timestamp t at nanosecond
resolution and every start date s on or before the calendar day of t,
long2timestamp (timestamp2long t s) s equals t exactly.  The code
computes the offset in IEEE binary64 floats, and for offsets of 2 to
the 53rd nanoseconds or more (about 104 days) the rounding loses the
low bits.  Failing input: t = 2021-09-08 00:00:00.000000001
(epoch ns 1631059200000000001), s = 2021-01-01 (epoch ns
1609459200000000000), 250 days apart: the encoder returns
21600000000000000 instead of 21600000000000001, and decoding gives
back 2021-09-08 00:00:00, one nanosecond early. -/
theorem C1_roundtrip_fails_at_250_days :
    timestamp2longScalar 1631059200000000001 (some 1609459200000000000)
        = Except.ok 21600000000000000 ∧
    long2timestamp 21600000000000000 1609459200000000000 = 1631059200000000000 ∧
    (1631059200000000000 : Int) ≠ 1631059200000000001 := by
  refine ⟨rfl, rfl, by decide⟩

/-- C2: encoding a timestamp whose nanosecond offset from the start
date midnight exceeds the signed 64-bit maximum raises the pandas
overflow condition and returns no value, for scalar and for sequence
input alike.  The raise happens at the checked subtraction
timestamp - start_date.floor, before the dead explicit check. -/
theorem C2_encode_overflow (t s : Int) (ts : List Int)
    (hmem : t ∈ ts)
    (hover : t - floorDay s > maxInt64) :
    timestamp2longScalar t (some s) = Except.error PyErr.overflowError ∧
    timestamp2longSeq ts (some s) = Except.error PyErr.overflowError := by
  constructor
  · unfold timestamp2longScalar
    simp only [Option.getD_some]
    rw [if_pos (Or.inl hover)]
  · unfold timestamp2longSeq
    have hany : (ts.any fun t => decide (t - floorDay s > maxInt64) || decide (t - floorDay s < -maxInt64)) = true := by
      rw [List.any_eq_true]
      exact ⟨t, hmem, by simp [hover]⟩
    simp [hany]

/-- C2 witness: 2262-04-11 23:47:16.854775807 (the largest
pd.Timestamp) encoded against start date 1969-12-31. -/
theorem C2_encode_overflow_witness :
    (9223372036854775807 : Int) ∈ [(9223372036854775807 : Int)] ∧
    (9223372036854775807 : Int) - floorDay (-86400000000000) > maxInt64 ∧
    timestamp2longScalar 9223372036854775807 (some (-86400000000000))
        = Except.error PyErr.overflowError ∧
    timestamp2longSeq [9223372036854775807] (some (-86400000000000))
        = Except.error PyErr.overflowError := by
  have h := C2_encode_overflow 9223372036854775807 (-86400000000000)
    [9223372036854775807] (by decide) (by decide)
  exact ⟨by decide, by decide, h.1, h.2⟩

/-- bytearray slice assignment: buf[off : off + bs.length] = bs replaces
that range of the buffer by bs. -/
def writeSlice (buf : List Nat) (off : Nat) (bs : List Nat) : List Nat :=
  buf.take off ++ bs ++ buf.drop (off + bs.length)

/-- Payload-assembly loop of SessionFrame.add_row_data: a zeroed
bytearray of length len(data) * 4, then for i, value in enumerate(data)
the slice at i * 4 is overwritten with struct.pack of the value.  The
4-byte IEEE-754 binary32 encoding that struct.pack produces is the
parameter pack (a boundary function of the Python standard library);
the buffer assembly is modelled exactly. -/
def add_row_databytes {α : Type} (pack : α → List Nat) (data : List α) : List Nat :=
  (data.enum).foldl (fun buf iv => writeSlice buf (iv.1 * 4) (pack iv.2))
    (List.replicate (data.length * 4) 0)

theorem add_row_databytes_fold {α : Type} (pack : α → List Nat)
    (h4 : ∀ v, (pack v).length = 4) (data : List α) :
    ∀ (k : Nat) (pre : List Nat), pre.length = k * 4 →
      (List.enumFrom k data).foldl (fun buf iv => writeSlice buf (iv.1 * 4) (pack iv.2))
        (pre ++ List.replicate (data.length * 4) 0)
      = pre ++ (data.map pack).flatten := by
  induction data with
  | nil => intro k pre hpre; simp [List.enumFrom]
  | cons v rest ih =>
    intro k pre hpre
    have hsplit : (rest.length + 1) * 4 = 4 + rest.length * 4 := by omega
    have hrep : List.replicate ((v :: rest).length * 4) (0 : Nat)
        = List.replicate 4 0 ++ List.replicate (rest.length * 4) 0 := by
      simp only [List.length_cons, hsplit, List.replicate_add]
    rw [hrep]
    simp only [List.enumFrom, List.foldl_cons]
    have hbuf : writeSlice (pre ++ (List.replicate 4 0 ++ List.replicate (rest.length * 4) 0))
        (k * 4) (pack v) = (pre ++ pack v) ++ List.replicate (rest.length * 4) 0 := by
      unfold writeSlice
      rw [h4 v]
      rw [List.take_left' hpre]
      rw [← List.append_assoc]
      have hlen : (pre ++ List.replicate 4 (0 : Nat)).length = k * 4 + 4 := by
        simp [hpre]
      rw [List.drop_left' hlen]
    rw [hbuf]
    have := ih (k + 1) (pre ++ pack v) (by simp [hpre, h4 v]; omega)
    rw [this]
    simp

theorem add_row_databytes_eq {α : Type} (pack : α → List Nat)
    (h4 : ∀ v, (pack v).length = 4) (data : List α) :
    add_row_databytes pack data = (data.map pack).flatten := by
  have h := add_row_databytes_fold pack h4 data 0 [] rfl
  simpa [add_row_databytes, List.enum] using h

theorem flatten_pack_length {α : Type} (pack : α → List Nat)
    (h4 : ∀ v, (pack v).length = 4) (data : List α) :
    ((data.map pack).flatten).length = 4 * data.length := by
  induction data with
  | nil => simp
  | cons v rest ih => simp [h4 v, ih]; omega

theorem flatten_pack_slot {α : Type} (pack : α → List Nat)
    (h4 : ∀ v, (pack v).length = 4) (data : List α) :
    ∀ i (hi : i < data.length),
      (((data.map pack).flatten).drop (4 * i)).take 4 = pack (data.get ⟨i, hi⟩) := by
  induction data with
  | nil => intro i hi; simp at hi
  | cons v rest ih =>
    intro i hi
    cases i with
    | zero =>
      simp only [List.map_cons, List.flatten_cons, Nat.mul_zero, List.drop_zero]
      rw [List.take_left' (h4 v)]
      rfl
    | succ i =>
      simp only [List.map_cons, List.flatten_cons]
      have h1 : 4 * (i + 1) = (pack v).length + 4 * i := by rw [h4 v]; omega
      rw [h1, List.drop_append]
      exact ih i (by simpa using hi)

theorem C3_row_payload {α : Type} (pack : α → List Nat)
    (h4 : ∀ v, (pack v).length = 4) (data : List α) :
    add_row_databytes pack data = (data.map pack).flatten ∧
    (add_row_databytes pack data).length = 4 * data.length ∧
    ∀ i (hi : i < data.length),
      ((add_row_databytes pack data).drop (4 * i)).take 4 = pack (data.get ⟨i, hi⟩) := by
  have he := add_row_databytes_eq pack h4 data
  refine ⟨he, ?_, ?_⟩
  · rw [he]; exact flatten_pack_length pack h4 data
  · intro i hi
    rw [he]
    exact flatten_pack_slot pack h4 data i hi

theorem C3_row_payload_witness :
    add_row_databytes (fun v : Int => [v.toNat, 0, 0, 0]) [5, 7]
        = [5, 0, 0, 0, 7, 0, 0, 0] ∧
    (add_row_databytes (fun v : Int => [v.toNat, 0, 0, 0]) [5, 7]).length = 4 * 2 := by
  have h := C3_row_payload (fun v : Int => [v.toNat, 0, 0, 0]) (fun _ => rfl) [5, 7]
  refine ⟨?_, h.2.1⟩
  rw [h.1]
  rfl

/- Model of session_frame.py.

SessionFrame.to_atlas_session and its helpers are modelled against an
abstract recording-engine session.  DataFrame cells are Option Int
(none is NaN); the claims under verification never depend on
fractional cell values, so cells are integers.  A row is
(timestamp, cells); cell j of a row list shorter than the column list
reads as missing.

Engine boundary, from spec section 6: after configuration Commit
succeeds, session.ContainsParameter and GetParameter resolve the
committed parameters; Commit raises
ConfigurationSetAlreadyExistsException when the configuration
identifier already exists (modelled by the commitOutcome oracle of
EngineEnv, line 268-273 of session_frame.py catches and logs it);
ReserveNextAvailableRowChannelId returns an engine-chosen integer,
modelled as an arbitrary function of the number of reservations made
so far; the random five-hex-digit configuration identifier is the
configToken oracle.  The per-column writes run in a thread pool whose
futures are only waited on, never queried, so an exception inside one
write is swallowed; the model performs the writes in column order and
records per-column failures. -/

def emptyString : String := ""

def lapColName : String := "Lap"

def myParamChannelName : String := "MyParamChannel"

def conversionName : String := "Simple1To1"

def configDescriptionText : String := "SessionFrame generated config"

def descriptionSuffix : String := " description"

def defaultFormat : String := "%5.2f"

/-- Parameter identifier string f-string name:ApplicationGroupName. -/
def paramIdent (name group : String) : String := name ++ ":" ++ group

/-- Lap display name f-string Lap n. -/
def lapNameOf (n : Int) : String := "Lap " ++ toString n

/-- A Lap object: Lap(int(timestamp64), int(lap), Byte(0), name, True). -/
structure LapRec where
  time : Int
  num : Int
  name : String
  deriving DecidableEq, Repr

/-- A parameter as visible in the session: identifier plus the ids of
its channels (GetParameter(...).Channels). -/
structure ParamEntry where
  identifier : String
  channels : List Int
  deriving DecidableEq, Repr

/-- One AddRowData call: channel id, encoded int64 timestamps and the
sample values whose 4-byte payload add_row_databytes assembles. -/
structure RowWrite where
  channelId : Int
  timestamps : List Int
  values : List Int
  deriving DecidableEq, Repr

/-- The mutable state of a MESL.SqlRace session as the modelled code
observes and mutates it. -/
structure Session where
  laps : List LapRec
  params : List ParamEntry
  loggingConfig : Option String
  rowData : List RowWrite
  deriving DecidableEq, Repr

def containsParameter (s : Session) (pid : String) : Bool :=
  s.params.any (fun p => p.identifier = pid)

def getParameter (s : Session) (pid : String) : Option ParamEntry :=
  s.params.find? (fun p => p.identifier = pid)

/-- Channel descriptor added to a ConfigurationSet:
Channel(channel_id, name, 0, DataType.FloatingPoint32Bit, ChannelDataSourceType.RowData). -/
structure ChannelRec where
  id : Int
  name : String
  deriving DecidableEq, Repr

/-- Parameter descriptor added to a ConfigurationSet by _add_param. -/
structure ParamRec where
  identifier : String
  name : String
  description : String
  dispMax : Int
  dispMin : Int
  warnMax : Int
  warnMin : Int
  conversion : String
  groupIds : List String
  channelIds : List Int
  appGroup : String
  fmt : String
  unit : String
  deriving DecidableEq, Repr

/-- A ConfigurationSet being built before Commit. -/
structure ConfigSet where
  identifier : String
  description : String
  paramGroups : List String
  appGroups : List String
  conversions : List String
  channels : List ChannelRec
  parameters : List ParamRec
  deriving DecidableEq, Repr

/-- The SessionFrame accessor state: group names and the per-identifier
unit / description / display-format overrides (dictionaries, modelled
as association lists). -/
structure SFState where
  ParameterGroupIdentifier : String
  ApplicationGroupName : String
  units : List (String × String)
  descriptions : List (String × String)
  display_format : List (String × String)
  deriving DecidableEq, Repr

/-- Outcome of config.Commit() at the engine boundary. -/
inductive CommitOutcome where
  | success
  | alreadyExists
  | failure (e : PyErr)
  deriving DecidableEq, Repr

/-- Engine-chosen values: the k-th ReserveNextAvailableRowChannelId
result, the Commit outcome, and the random configuration identifier. -/
structure EngineEnv where
  reserveIds : Nat → Int
  commitOutcome : CommitOutcome
  configToken : String

/-- Python dict get: first binding for the key. -/
def aget (m : List (String × Int)) (k : String) : Option Int :=
  (m.find? (fun p => p.1 = k)).map (fun p => p.2)

/-- Python dict assignment: overwrite the binding for the key. -/
def aset (m : List (String × Int)) (k : String) (v : Int) : List (String × Int) :=
  m.filter (fun p => p.1 ≠ k) ++ [(k, v)]

/-- Python dict.get with default, for the string-valued override dicts. -/
def sget (m : List (String × String)) (k : String) (d : String) : String :=
  ((m.find? (fun p => p.1 = k)).map (fun p => p.2)).getD d

/-- DataFrame model: column names and timestamped rows. -/
structure DF where
  colNames : List String
  rows : List (Int × List (Option Int))
  deriving DecidableEq, Repr

def colVals (df : DF) (j : Nat) : List (Option Int) :=
  df.rows.map (fun r => r.2.getD j none)

/-- Indices of columns that hold at least one non-missing value. -/
def keepCols (df : DF) : List Nat :=
  (List.range df.colNames.length).filter (fun j => (colVals df j).any (fun v => v.isSome))

/-- df.dropna(axis=1, how="all"): drop columns devoid of data. -/
def dropAllNaN (df : DF) : DF :=
  { colNames := (keepCols df).map (fun j => df.colNames.getD j emptyString)
    rows := df.rows.map (fun r => (r.1, (keepCols df).map (fun j => r.2.getD j none))) }

def rowLE (a b : Int × List (Option Int)) : Prop := a.1 ≤ b.1

instance : DecidableRel rowLE := fun a b => (inferInstance : Decidable (a.1 ≤ b.1))

instance : IsTotal (Int × List (Option Int)) rowLE := ⟨fun a b => Int.le_total a.1 b.1⟩

instance : IsTrans (Int × List (Option Int)) rowLE := ⟨fun _ _ _ h1 h2 => le_trans h1 h2⟩

/-- df.sort_index(): rows in ascending timestamp order. -/
def sortRows (df : DF) : DF :=
  { df with rows := List.insertionSort rowLE df.rows }

/-- The preprocessing step self._obj = self._obj.dropna(axis=1, how="all").sort_index(). -/
def prepDF (df : DF) : DF := sortRows (dropAllNaN df)

/-- The python type of the index object handed to to_atlas_session.
datetime: already a pd.DatetimeIndex (rows carry its values).
rawParsable: pd.to_datetime(index) succeeds and the rows carry the
parsed values.  rawParseFail: pd.to_datetime raises
pd.errors.ParserError, which the except clause catches, after which
the index is still not a DatetimeIndex and AttributeError is raised.
rawOtherFail: pd.to_datetime raises any other exception (the usual
case for unparseable string indexes is a DateParseError, a ValueError
subclass, which the except clause does not catch), and it propagates. -/
inductive IndexKind where
  | datetime
  | rawParsable
  | rawParseFail
  | rawOtherFail (e : PyErr)
  deriving DecidableEq, Repr

/-- The rows of self._obj.loc[t] (label lookup). -/
def locRows (df : DF) (t : Int) : List (List (Option Int)) :=
  (df.rows.filter (fun r => r.1 = t)).map (fun r => r.2)

/-- Lap number resolution at the first timestamp: self._obj.loc[timestamp].Lap,
AttributeError when there is no Lap column gives lap = 1; a missing
value would make int(nan) raise ValueError; duplicate labels make loc
return a DataFrame and int() raise TypeError. -/
def lapNumberAt (df : DF) (t : Int) : Except PyErr Int :=
  match List.indexOf? lapColName df.colNames with
  | none => .ok 1
  | some j =>
    match locRows df t with
    | [vs] =>
      match vs.getD j none with
      | some v => .ok v
      | none => .error .valueError
    | _ => .error .typeError

/-- numpy max of a nonempty array, seeded with the first element. -/
def listMax (l : List Int) : Int := l.foldl max (l.headD 0)

/-- numpy min of a nonempty array. -/
def listMin (l : List Int) : Int := l.foldl min (l.headD 0)

/-- The channel id recorded for a fresh reservation:
session.ReserveNextAvailableRowChannelId() % 2147483647. -/
def reservedChannelId (env : EngineEnv) (k : Nat) : Int :=
  env.reserveIds k % 2147483647

/-- Channel descriptor built by _add_channel for a fresh column. -/
def newChannelRec (env : EngineEnv) (k : Nat) : ChannelRec :=
  { id := reservedChannelId env k, name := myParamChannelName }

/-- Parameter descriptor built by _add_param for a fresh column:
display and warning bounds are the NaN-dropped min and max of the
column data, description, format and unit come from the override
dictionaries with their documented defaults, and the channel list is
the single freshly reserved (reduced) channel id. -/
def newParamRec (sf : SFState) (env : EngineEnv) (df : DF) (j : Nat) (c : String) (k : Nat) :
    ParamRec :=
  { identifier := paramIdent c sf.ApplicationGroupName
    name := c
    description := sget sf.descriptions (paramIdent c sf.ApplicationGroupName)
      (c ++ descriptionSuffix)
    dispMax := listMax ((colVals df j).filterMap id)
    dispMin := listMin ((colVals df j).filterMap id)
    warnMax := listMax ((colVals df j).filterMap id)
    warnMin := listMin ((colVals df j).filterMap id)
    conversion := conversionName
    groupIds := [sf.ParameterGroupIdentifier]
    channelIds := [reservedChannelId env k]
    appGroup := sf.ApplicationGroupName
    fmt := sget sf.display_format (paramIdent c sf.ApplicationGroupName) defaultFormat
    unit := sget sf.units (paramIdent c sf.ApplicationGroupName) emptyString }

/-- The per-column creation loop of the need_new_config branch
(session_frame.py lines 228-266): for each column whose parameter
identifier is not yet in the session, reserve a channel id, reduce it,
record it in paramchannelID (_add_channel), add the Channel descriptor
and the Parameter descriptor.  State: configuration under
construction, paramchannelID dict, number of reservations so far. -/
def buildMissing (sf : SFState) (env : EngineEnv) (s : Session) (df : DF) :
    List (Nat × String) → ConfigSet × List (String × Int) × Nat →
    ConfigSet × List (String × Int) × Nat
  | [], st => st
  | (j, c) :: rest, (cs, m, k) =>
    if containsParameter s (paramIdent c sf.ApplicationGroupName) then
      buildMissing sf env s df rest (cs, m, k)
    else
      buildMissing sf env s df rest
        ({ cs with channels := cs.channels ++ [newChannelRec env k],
                   parameters := cs.parameters ++ [newParamRec sf env df j c k] },
         aset m c (reservedChannelId env k), k + 1)

/-- config.Commit() at the boundary: on success the committed
parameters become resolvable in the session; a duplicate identifier
raises ConfigurationSetAlreadyExistsException, which the code catches
and logs; any other engine failure propagates. -/
def commitConfig (env : EngineEnv) (cs : ConfigSet) (s : Session) : Session × Option PyErr :=
  match env.commitOutcome with
  | .success =>
    let newEntries := cs.parameters.map (fun p => ParamEntry.mk p.identifier p.channelIds)
    ({ s with params := s.params ++ newEntries }, none)
  | .alreadyExists => (s, none)
  | .failure e => (s, some e)

/-- The channel-id resolution loop (lines 276-287): for every column
whose parameter exists in the session, overwrite paramchannelID with
the id of the first channel of the session parameter. -/
def resolveChannels (sf : SFState) (s : Session) :
    List (String × Int) → List String → List (String × Int)
  | m, [] => m
  | m, c :: rest =>
    match getParameter s (paramIdent c sf.ApplicationGroupName) with
    | none => resolveChannels sf s m rest
    | some p => resolveChannels sf s (aset m c (p.channels.headD 0)) rest

/-- The python type of the timestamps argument of add_row_data. -/
inductive TimestampsArg where
  | datetimeIndex (ts : List Int)
  | ndarrayDatetime64 (ts : List Int)
  | otherObject
  deriving DecidableEq, Repr

/-- SessionFrame.add_row_data.  The guard
isinstance(timestamps, (pd.DatetimeIndex, npt.NDArray[np.datetime64]))
tests the tuple left to right: a pd.DatetimeIndex matches the first
class and short-circuits; every other argument reaches the second
member, the subscripted generic npt.NDArray[np.datetime64], for which
CPython isinstance itself raises TypeError - so even the numpy
datetime64 arrays that the signature advertises are rejected.  After
the guard the timestamps are encoded (timestamp2long with no start
date) and the write is handed to session.AddRowData with sample width
4 and is_periodic False. -/
def add_row_data (channelId : Int) (data : List Int) (timestamps : TimestampsArg) :
    Except PyErr RowWrite :=
  match timestamps with
  | .datetimeIndex ts =>
    match timestamp2longSeq ts none with
    | .error e => .error e
    | .ok enc => .ok { channelId := channelId, timestamps := enc, values := data }
  | _ => .error .typeError

/-- The non-missing part of column j: series = self._obj.loc[:, c].dropna(),
as (timestamp, value) pairs in row order. -/
def seriesOf (df : DF) (j : Nat) : List (Int × Int) :=
  df.rows.filterMap (fun r => (r.2.getD j none).map (fun v => (r.1, v)))

/-- One __add_data_for_param call: series = column dropna, channel id
from paramchannelID (KeyError when absent), then add_row_data on the
series timestamps and values. -/
def colOutcome (df : DF) (m : List (String × Int)) (j : Nat) (c : String) :
    Except PyErr RowWrite :=
  match aget m c with
  | none => .error .keyError
  | some cid =>
    add_row_data cid ((seriesOf df j).map (fun p => p.2))
      (.datetimeIndex ((seriesOf df j).map (fun p => p.1)))

/-- The parallel write phase (lines 295-300): one __add_data_for_param
per column; the thread pool is only waited on, so a failing column is
recorded and the export continues.  Writes are modelled in column
order; no cross-column ordering is guaranteed by the code. -/
def writeCols (df : DF) (m : List (String × Int)) :
    List (Nat × String) → Session → List (String × PyErr) →
    Session × List (String × PyErr)
  | [], s, fs => (s, fs)
  | (j, c) :: rest, s, fs =>
    match colOutcome df m j c with
    | .error e => writeCols df m rest s (fs ++ [(c, e)])
    | .ok w => writeCols df m rest { s with rowData := s.rowData ++ [w] } fs

/-- Result observables of one to_atlas_session call. -/
structure ExportResult where
  configCreated : Option ConfigSet
  reservations : Nat
  mapping : List (String × Int)
  writeFailures : List (String × PyErr)
  deriving DecidableEq, Repr

/-- The configuration object created by ConfigurationSetManager.Create
with the random identifier, plus the parameter group, application
group and conversion declarations (lines 176-225), before any channel
or parameter is added. -/
def initialConfig (sf : SFState) (env : EngineEnv) : ConfigSet :=
  { identifier := env.configToken
    description := configDescriptionText
    paramGroups := [sf.ParameterGroupIdentifier]
    appGroups := [sf.ApplicationGroupName]
    conversions := [conversionName]
    channels := []
    parameters := [] }

/-- Configuration synchronisation, resolution and write phases (lines
169-300), applied to the prepared table and the post-lap session. -/
def exportCore (sf : SFState) (env : EngineEnv) (df : DF) (s1 : Session) :
    Session × Except PyErr ExportResult :=
  if df.colNames.any
      (fun c => !containsParameter s1 (paramIdent c sf.ApplicationGroupName)) then
    let st := buildMissing sf env s1 df df.colNames.enum (initialConfig sf env, [], 0)
    match (commitConfig env st.1 s1).2 with
    | some e => ((commitConfig env st.1 s1).1, .error e)
    | none =>
      let s3 := { (commitConfig env st.1 s1).1 with loggingConfig := some st.1.identifier }
      let m2 := resolveChannels sf s3 st.2.1 df.colNames
      ((writeCols df m2 df.colNames.enum s3 []).1,
       .ok { configCreated := some st.1, reservations := st.2.2,
             mapping := m2,
             writeFailures := (writeCols df m2 df.colNames.enum s3 []).2 })
  else
    let m2 := resolveChannels sf s1 [] df.colNames
    ((writeCols df m2 df.colNames.enum s1 []).1,
     .ok { configCreated := none, reservations := 0,
           mapping := m2,
           writeFailures := (writeCols df m2 df.colNames.enum s1 []).2 })

/-- Lap step and dispatch into exportCore, on the prepared table
(lines 155-167): first timestamp of the sorted table, encoded with
timestamp2long and no start date; lap number from the Lap column or 1;
the lap is added only when the session has no lap yet. -/
def exportPrepped (sf : SFState) (env : EngineEnv) (df : DF) (session : Session) :
    Session × Except PyErr ExportResult :=
  match df.rows with
  | [] => (session, .error .indexError)
  | r0 :: _ =>
    match timestamp2longScalar r0.1 none with
    | .error e => (session, .error e)
    | .ok ts64 =>
      match lapNumberAt df r0.1 with
      | .error e => (session, .error e)
      | .ok lap =>
        let newLap : LapRec := { time := ts64, num := lap, name := lapNameOf lap }
        let s1 := if session.laps.length = 0
          then { session with laps := session.laps ++ [newLap] }
          else session
        exportCore sf env df s1

/-- SessionFrame.to_atlas_session (lines 98-306).  Index validation
first: a non-DatetimeIndex index is run through pd.to_datetime; only
pd.errors.ParserError is caught (leading to AttributeError from the
re-check); other parse failures propagate; on success the export
proceeds on the prepared (column-dropped, sorted) table. -/
def to_atlas_session (sf : SFState) (env : EngineEnv) (ix : IndexKind) (df : DF)
    (session : Session) : Session × Except PyErr ExportResult :=
  match ix with
  | .rawParseFail => (session, .error .attributeError)
  | .rawOtherFail e => (session, .error e)
  | _ => exportPrepped sf env (prepDF df) session

theorem tod_eq_sub_floorDay (t : Int) : tod t = t - floorDay t := by
  unfold tod floorDay nsPerDay
  omega

/-- Encoding a scalar timestamp against itself (the start_date = None
path of the lap step) always succeeds and yields the time of day. -/
theorem timestamp2longScalar_self (t : Int) : timestamp2longScalar t none = .ok (tod t) := by
  unfold timestamp2longScalar
  simp only [Option.getD_none]
  obtain ⟨h0, h1⟩ := tod_bounds t
  have hd : t - floorDay t = tod t := by rw [tod_eq_sub_floorDay]
  have hcond : ¬(t - floorDay t > maxInt64 ∨ t - floorDay t < -maxInt64) := by
    unfold maxInt64
    omega
  rw [if_neg hcond]
  have hlf : longF t (floorDay t) = t - floorDay t := by
    apply longF_exact t t
    · omega
    · have : (2 : Int) ^ 53 = 9007199254740992 := by norm_num
      omega
  rw [hlf, hd]
  have hc2 : ¬(tod t > maxInt64 ∨ tod t < minInt64) := by
    unfold maxInt64 minInt64
    omega
  rw [if_neg hc2]
  rw [if_neg (by omega)]

/-- Sequence encoding with default start date succeeds and gives the
exact offsets when every timestamp lies in the same int64 window and
within 2 to the 53rd nanoseconds of the midnight of the first one. -/
theorem timestamp2longSeq_ok (t0 : Int) (rest : List Int)
    (hall : ∀ t ∈ t0 :: rest, floorDay t0 ≤ t ∧ t - floorDay t0 < 2 ^ 53) :
    timestamp2longSeq (t0 :: rest) none
      = .ok ((t0 :: rest).map (fun t => t - floorDay t0)) := by
  unfold timestamp2longSeq
  simp only [List.head?_cons]
  have hp53 : (2 : Int) ^ 53 = 9007199254740992 := by norm_num
  have hnoover : ((t0 :: rest).any fun t =>
      decide (t - floorDay t0 > maxInt64 ∨ t - floorDay t0 < -maxInt64)) = false := by
    rw [List.any_eq_false]
    intro t ht
    obtain ⟨ha, hb⟩ := hall t ht
    simp only [Bool.not_eq_true, decide_eq_false_iff_not]
    unfold maxInt64
    omega
  have hmap : List.map (fun t => wrapCastInt64 (longF t (floorDay t0))) (t0 :: rest)
      = List.map (fun t => t - floorDay t0) (t0 :: rest) := by
    apply List.map_congr_left
    intro t ht
    obtain ⟨ha, hb⟩ := hall t ht
    have hlf : longF t (floorDay t0) = t - floorDay t0 := longF_exact t t0 (by omega) hb
    rw [hlf]
    unfold wrapCastInt64 maxInt64 minInt64
    rw [if_neg]
    omega
  have hnobig : ((List.map (fun t => t - floorDay t0) (t0 :: rest)).any fun v =>
      decide (v > 9223372036854775808)) = false := by
    rw [List.any_eq_false]
    intro v hv
    rw [List.mem_map] at hv
    obtain ⟨t, ht, rfl⟩ := hv
    obtain ⟨ha, hb⟩ := hall t ht
    simp only [Bool.not_eq_true, decide_eq_false_iff_not]
    omega
  rw [hnoover, if_neg Bool.false_ne_true, hmap, hnobig, if_neg Bool.false_ne_true]

theorem writeCols_state (df : DF) (m : List (String × Int)) :
    ∀ (l : List (Nat × String)) (s : Session) (fs : List (String × PyErr)),
      (writeCols df m l s fs).1.laps = s.laps ∧
      (writeCols df m l s fs).1.params = s.params ∧
      (writeCols df m l s fs).1.loggingConfig = s.loggingConfig := by
  intro l
  induction l with
  | nil => intro s fs; exact ⟨rfl, rfl, rfl⟩
  | cons jc rest ih =>
    intro s fs
    obtain ⟨j, c⟩ := jc
    unfold writeCols
    cases colOutcome df m j c with
    | error e => exact ih s (fs ++ [(c, e)])
    | ok w => exact ih { s with rowData := s.rowData ++ [w] } fs

/-- Every column attempted in the write phase ends as exactly one row
write or one recorded failure. -/
theorem writeCols_count (df : DF) (m : List (String × Int)) :
    ∀ (l : List (Nat × String)) (s : Session) (fs : List (String × PyErr)),
      (writeCols df m l s fs).1.rowData.length + (writeCols df m l s fs).2.length
        = s.rowData.length + fs.length + l.length := by
  intro l
  induction l with
  | nil => intro s fs; simp [writeCols]
  | cons jc rest ih =>
    intro s fs
    obtain ⟨j, c⟩ := jc
    unfold writeCols
    cases colOutcome df m j c with
    | error e =>
      have h := ih s (fs ++ [(c, e)])
      simp only [List.length_append, List.length_cons, List.length_nil] at h ⊢
      omega
    | ok w =>
      have h := ih { s with rowData := s.rowData ++ [w] } fs
      simp only [List.length_append, List.length_cons, List.length_nil] at h ⊢
      omega

theorem buildMissing_const (sf : SFState) (env : EngineEnv) (s : Session) (df : DF) :
    ∀ (l : List (Nat × String)) (st : ConfigSet × List (String × Int) × Nat),
      (buildMissing sf env s df l st).1.identifier = st.1.identifier ∧
      (buildMissing sf env s df l st).1.paramGroups = st.1.paramGroups ∧
      (buildMissing sf env s df l st).1.appGroups = st.1.appGroups ∧
      (buildMissing sf env s df l st).1.conversions = st.1.conversions := by
  intro l
  induction l with
  | nil => intro st; exact ⟨rfl, rfl, rfl, rfl⟩
  | cons jc rest ih =>
    intro st
    obtain ⟨j, c⟩ := jc
    obtain ⟨cs, m, k⟩ := st
    unfold buildMissing
    by_cases hc : containsParameter s (paramIdent c sf.ApplicationGroupName) = true
    · rw [if_pos hc]
      exact ih (cs, m, k)
    · rw [if_neg hc]
      exact ih _

/-- The parameter list of the configuration only grows during the
creation loop. -/
theorem buildMissing_params_mono (sf : SFState) (env : EngineEnv) (s : Session) (df : DF) :
    ∀ (l : List (Nat × String)) (st : ConfigSet × List (String × Int) × Nat),
      ∃ ext, (buildMissing sf env s df l st).1.parameters = st.1.parameters ++ ext := by
  intro l
  induction l with
  | nil => intro st; exact ⟨[], by simp [buildMissing]⟩
  | cons jc rest ih =>
    intro st
    obtain ⟨j, c⟩ := jc
    obtain ⟨cs, m, k⟩ := st
    unfold buildMissing
    by_cases hc : containsParameter s (paramIdent c sf.ApplicationGroupName) = true
    · rw [if_pos hc]
      exact ih (cs, m, k)
    · rw [if_neg hc]
      obtain ⟨ext, hext⟩ := ih
        ({ cs with channels := cs.channels ++ [newChannelRec env k],
                   parameters := cs.parameters ++ [newParamRec sf env df j c k] },
         aset m c (reservedChannelId env k), k + 1)
      refine ⟨newParamRec sf env df j c k :: ext, ?_⟩
      rw [hext]
      simp

/-- Every column fed to the creation loop is either already declared in
the session or ends with a parameter descriptor bearing its identifier
in the built configuration. -/
theorem buildMissing_covers (sf : SFState) (env : EngineEnv) (s : Session) (df : DF) :
    ∀ (l : List (Nat × String)) (st : ConfigSet × List (String × Int) × Nat),
      ∀ jc ∈ l, containsParameter s (paramIdent jc.2 sf.ApplicationGroupName) = true ∨
        ∃ pr ∈ (buildMissing sf env s df l st).1.parameters,
          pr.identifier = paramIdent jc.2 sf.ApplicationGroupName := by
  intro l
  induction l with
  | nil => intro st jc hjc; cases hjc
  | cons jc0 rest ih =>
    intro st jc hjc
    obtain ⟨j, c⟩ := jc0
    obtain ⟨cs, m, k⟩ := st
    unfold buildMissing
    by_cases hc : containsParameter s (paramIdent c sf.ApplicationGroupName) = true
    · rw [if_pos hc]
      rcases List.mem_cons.mp hjc with heq | hmem
      · left
        rw [heq]
        exact hc
      · exact ih (cs, m, k) jc hmem
    · rw [if_neg hc]
      rcases List.mem_cons.mp hjc with heq | hmem
      · right
        obtain ⟨ext, hext⟩ := buildMissing_params_mono sf env s df rest
          ({ cs with channels := cs.channels ++ [newChannelRec env k],
                     parameters := cs.parameters ++ [newParamRec sf env df j c k] },
           aset m c (reservedChannelId env k), k + 1)
        refine ⟨newParamRec sf env df j c k, ?_, ?_⟩
        · rw [hext]
          simp
        · rw [heq]
          rfl
      · exact ih _ jc hmem

theorem exportCore_laps (sf : SFState) (env : EngineEnv) (df : DF) (s1 : Session) :
    (exportCore sf env df s1).1.laps = s1.laps := by
  unfold exportCore
  by_cases hneed : (df.colNames.any
      (fun c => !containsParameter s1 (paramIdent c sf.ApplicationGroupName))) = true
  · rw [if_pos hneed]
    cases hco : env.commitOutcome with
    | success =>
      simp only [commitConfig, hco]
      exact (writeCols_state _ _ _ _ _).1
    | alreadyExists =>
      simp only [commitConfig, hco]
      exact (writeCols_state _ _ _ _ _).1
    | failure e =>
      simp only [commitConfig, hco]
  · rw [if_neg hneed]
    exact (writeCols_state _ _ _ _ _).1


/-- After an export whose commit succeeded, every column of the table
resolves in the resulting session. -/
theorem exportCore_success_contains (sf : SFState) (env : EngineEnv) (df : DF) (s1 : Session)
    (hsucc : env.commitOutcome = .success) (c : String) (hc : c ∈ df.colNames) :
    containsParameter (exportCore sf env df s1).1 (paramIdent c sf.ApplicationGroupName) = true := by
  obtain ⟨jc, hjcmem, hjc2⟩ : ∃ jc ∈ df.colNames.enum, jc.2 = c := by
    have hmm : c ∈ df.colNames.enum.map Prod.snd := by
      rw [List.enum_map_snd]
      exact hc
    obtain ⟨jc, hjcmem, hjc2⟩ := List.mem_map.mp hmm
    exact ⟨jc, hjcmem, hjc2⟩
  unfold exportCore
  by_cases hneed : (df.colNames.any
      (fun c => !containsParameter s1 (paramIdent c sf.ApplicationGroupName))) = true
  · rw [if_pos hneed]
    simp only [commitConfig, hsucc]
    unfold containsParameter
    rw [(writeCols_state _ _ _ _ _).2.1]
    simp only [List.any_append]
    rcases buildMissing_covers sf env s1 df df.colNames.enum
        (initialConfig sf env, [], 0) jc hjcmem with hin | ⟨pr, hprmem, hpr⟩
    · unfold containsParameter at hin
      rw [hjc2] at hin
      rw [hin]
      rfl
    · have hr : (((buildMissing sf env s1 df df.colNames.enum
          (initialConfig sf env, [], 0)).1.parameters.map
            (fun p => ParamEntry.mk p.identifier p.channelIds)).any
          (fun p => p.identifier = paramIdent c sf.ApplicationGroupName)) = true := by
        rw [List.any_eq_true]
        refine ⟨ParamEntry.mk pr.identifier pr.channelIds, List.mem_map_of_mem _ hprmem, ?_⟩
        rw [hjc2] at hpr
        simp [hpr]
      rw [hr]
      simp
  · rw [if_neg hneed]
    unfold containsParameter
    rw [(writeCols_state _ _ _ _ _).2.1]
    rw [Bool.not_eq_true] at hneed
    rw [List.any_eq_false] at hneed
    have h2 := hneed c hc
    unfold containsParameter at h2
    simpa using h2

theorem exportCore_not_needed (sf : SFState) (env : EngineEnv) (df : DF) (s1 : Session)
    (hneed : (df.colNames.any
      (fun c => !containsParameter s1 (paramIdent c sf.ApplicationGroupName))) = false) :
    exportCore sf env df s1 =
      ((writeCols df (resolveChannels sf s1 [] df.colNames) df.colNames.enum s1 []).1,
       .ok { configCreated := none, reservations := 0,
             mapping := resolveChannels sf s1 [] df.colNames,
             writeFailures :=
               (writeCols df (resolveChannels sf s1 [] df.colNames) df.colNames.enum s1 []).2 }) := by
  unfold exportCore
  rw [hneed]
  simp

/-- The configuration, dictionary and reservation count built by the
creation loop of one export call. -/
def builtState (sf : SFState) (env : EngineEnv) (df : DF) (s1 : Session) :
    ConfigSet × List (String × Int) × Nat :=
  buildMissing sf env s1 df df.colNames.enum (initialConfig sf env, [], 0)

/-- The session after UseLoggingConfigurationSet in the
duplicate-identifier commit case: only the logging configuration
changed. -/
def dupS3 (sf : SFState) (env : EngineEnv) (df : DF) (s1 : Session) : Session :=
  { s1 with loggingConfig := some (builtState sf env df s1).1.identifier }

/-- The resolved channel dictionary in the duplicate-identifier case. -/
def dupM2 (sf : SFState) (env : EngineEnv) (df : DF) (s1 : Session) : List (String × Int) :=
  resolveChannels sf (dupS3 sf env df s1) (builtState sf env df s1).2.1 df.colNames

theorem exportCore_dup_eq (sf : SFState) (env : EngineEnv) (df : DF) (s1 : Session)
    (hneed : (df.colNames.any
      (fun c => !containsParameter s1 (paramIdent c sf.ApplicationGroupName))) = true)
    (hco : env.commitOutcome = .alreadyExists) :
    exportCore sf env df s1 =
      ((writeCols df (dupM2 sf env df s1) df.colNames.enum (dupS3 sf env df s1) []).1,
       .ok { configCreated := some (builtState sf env df s1).1
             reservations := (builtState sf env df s1).2.2
             mapping := dupM2 sf env df s1
             writeFailures :=
               (writeCols df (dupM2 sf env df s1) df.colNames.enum (dupS3 sf env df s1) []).2 }) := by
  unfold exportCore dupM2 dupS3 builtState
  rw [if_pos hneed]
  simp only [commitConfig, hco]

/-- The identifier of the built configuration is the random token. -/
theorem buildMissing_identifier (sf : SFState) (env : EngineEnv) (s : Session) (df : DF)
    (l : List (Nat × String)) :
    (buildMissing sf env s df l (initialConfig sf env, [], 0)).1.identifier = env.configToken :=
  (buildMissing_const sf env s df l (initialConfig sf env, [], 0)).1

theorem exportPrepped_eq (sf : SFState) (env : EngineEnv) (df : DF) (session : Session)
    (r0 : Int × List (Option Int)) (rest : List (Int × List (Option Int))) (lapv : Int)
    (hrows : df.rows = r0 :: rest)
    (hlap : lapNumberAt df r0.1 = .ok lapv) :
    exportPrepped sf env df session =
      exportCore sf env df (if session.laps.length = 0
        then { session with laps := session.laps ++
          [{ time := tod r0.1, num := lapv, name := lapNameOf lapv }] }
        else session) := by
  unfold exportPrepped
  rw [hrows]
  simp only [timestamp2longScalar_self, hlap]

/-- The head of the prepared table carries the smallest timestamp of
the original table. -/
theorem prepDF_head_min (df : DF) (r0 : Int × List (Option Int))
    (rest : List (Int × List (Option Int)))
    (h : (prepDF df).rows = r0 :: rest) :
    ∀ q ∈ df.rows, r0.1 ≤ q.1 := by
  intro q hq
  have hq' : (q.1, (keepCols df).map (fun j => q.2.getD j none)) ∈ (dropAllNaN df).rows := by
    unfold dropAllNaN
    exact List.mem_map.mpr ⟨q, hq, rfl⟩
  have hmem : (q.1, (keepCols df).map (fun j => q.2.getD j none)) ∈ (prepDF df).rows := by
    unfold prepDF sortRows
    exact ((List.perm_insertionSort rowLE _).mem_iff).mpr hq'
  rw [h] at hmem
  have hsorted : List.Sorted rowLE ((prepDF df).rows) := by
    unfold prepDF sortRows
    exact List.sorted_insertionSort rowLE _
  rw [h, List.sorted_cons] at hsorted
  rcases List.mem_cons.mp hmem with heq | hmem2
  · rw [← heq]
  · have h3 := hsorted.1 _ hmem2
    exact h3

/-- C9: for a table whose index is not a DatetimeIndex and cannot be
parsed into one, to_atlas_session raises before any session
interaction: the returned session is the input session unchanged (no
lap added, no configuration created or committed, no row data written).
When pd.to_datetime fails with the caught pd.errors.ParserError the
re-check raises AttributeError (the error class the method documents
for a non-temporal index); any other parse exception propagates as
itself.  Either way the failure happens before the first session
mutation. -/
theorem C9_invalid_index_no_mutation (sf : SFState) (env : EngineEnv) (df : DF)
    (session : Session) (e : PyErr) :
    to_atlas_session sf env .rawParseFail df session = (session, .error .attributeError) ∧
    to_atlas_session sf env (.rawOtherFail e) df session = (session, .error e) :=
  ⟨rfl, rfl⟩

/-- C10: add_row_data accepts only pd.DatetimeIndex timestamps.  The
isinstance tuple is tested left to right; any non-DatetimeIndex
argument, including the numpy datetime64 arrays advertised by the
signature and docstring, reaches the subscripted generic
npt.NDArray[np.datetime64], for which CPython isinstance itself raises
TypeError - before any timestamp encoding or session write. -/
theorem C10_add_row_data_type_guard (cid : Int) (data : List Int) (ts : List Int) :
    add_row_data cid data (.ndarrayDatetime64 ts) = .error .typeError ∧
    add_row_data cid data .otherObject = .error .typeError :=
  ⟨rfl, rfl⟩

/-- C8: every channel descriptor added by the creation loop, and every
channel id recorded in the paramchannelID dict by _add_channel, is the
value returned by some ReserveNextAvailableRowChannelId call reduced
modulo 2147483647, and therefore lies in [0, 2^31 - 2]. -/
theorem C8_channel_reduction (sf : SFState) (env : EngineEnv) (s : Session) (df : DF)
    (l : List (Nat × String)) (cs : ConfigSet) (m : List (String × Int)) (k : Nat) :
    (∀ ch ∈ (buildMissing sf env s df l (cs, m, k)).1.channels,
      ch ∈ cs.channels ∨ ∃ i, ch.id = env.reserveIds i % 2147483647 ∧
        0 ≤ ch.id ∧ ch.id ≤ 2147483646) ∧
    (∀ p ∈ (buildMissing sf env s df l (cs, m, k)).2.1,
      p ∈ m ∨ ∃ i, p.2 = env.reserveIds i % 2147483647 ∧
        0 ≤ p.2 ∧ p.2 ≤ 2147483646) := by
  induction l generalizing cs m k with
  | nil =>
    constructor <;> (intro x hx; left; exact hx)
  | cons jc rest ih =>
    obtain ⟨j, c⟩ := jc
    unfold buildMissing
    by_cases hc : containsParameter s (paramIdent c sf.ApplicationGroupName) = true
    · rw [if_pos hc]
      exact ih cs m k
    · rw [if_neg hc]
      have ihs := ih
        { cs with channels := cs.channels ++ [newChannelRec env k],
                  parameters := cs.parameters ++ [newParamRec sf env df j c k] }
        (aset m c (reservedChannelId env k)) (k + 1)
      constructor
      · intro ch hch
        rcases ihs.1 ch hch with hin | hex
        · simp only [List.mem_append] at hin
          rcases hin with h1 | h2
          · left
            exact h1
          · right
            refine ⟨k, ?_, ?_, ?_⟩
            · have hch2 : ch = newChannelRec env k := by simpa using h2
              rw [hch2]
              rfl
            · have hch2 : ch = newChannelRec env k := by simpa using h2
              rw [hch2]
              show 0 ≤ env.reserveIds k % 2147483647
              omega
            · have hch2 : ch = newChannelRec env k := by simpa using h2
              rw [hch2]
              show env.reserveIds k % 2147483647 ≤ 2147483646
              omega
        · right
          exact hex
      · intro p hp
        rcases ihs.2 p hp with hin | hex
        · unfold aset at hin
          simp only [List.mem_append] at hin
          rcases hin with h1 | h2
          · left
            exact List.mem_of_mem_filter h1
          · right
            refine ⟨k, ?_, ?_, ?_⟩
            · have hp2 : p = (c, reservedChannelId env k) := by simpa using h2
              rw [hp2]
              rfl
            · have hp2 : p = (c, reservedChannelId env k) := by simpa using h2
              rw [hp2]
              show 0 ≤ env.reserveIds k % 2147483647
              omega
            · have hp2 : p = (c, reservedChannelId env k) := by simpa using h2
              rw [hp2]
              show env.reserveIds k % 2147483647 ≤ 2147483646
              omega
        · right
          exact hex

/-- The SessionFrame accessor state as __init__ leaves it: default
group names and empty override dictionaries. -/
def defaultSF : SFState :=
  { ParameterGroupIdentifier := "SessionFrame"
    ApplicationGroupName := "MyApp"
    units := []
    descriptions := []
    display_format := [] }

def colA : String := "A"

def colB : String := "B"

/-- Concrete engine oracle for witnesses: the engine hands out
5000000000 + k (a value above 2^31 - 1, exercising the reduction). -/
def envW : EngineEnv :=
  { reserveIds := fun k => 5000000000 + (k : Int)
    commitOutcome := .success
    configToken := "00abc" }

def sessW : Session := { laps := [], params := [], loggingConfig := none, rowData := [] }

/-- Concrete one-column table for witnesses; rows deliberately out of
order so the sort is exercised. -/
def dfW : DF :=
  { colNames := [colA]
    rows := [(86400000000001, [some 4]), (86400000000000, [some 3])] }

/-- C8 witness: with the engine returning 5000000000, the channel
descriptor and the dict entry both carry 5000000000 % 2147483647 =
705032706. -/
theorem C8_channel_reduction_witness :
    ChannelRec.mk 705032706 myParamChannelName
        ∈ (buildMissing defaultSF envW sessW dfW [(0, colA)]
            (initialConfig defaultSF envW, [], 0)).1.channels ∧
    (ChannelRec.mk 705032706 myParamChannelName ∈ (initialConfig defaultSF envW).channels ∨
      ∃ i, (ChannelRec.mk 705032706 myParamChannelName).id = envW.reserveIds i % 2147483647 ∧
        0 ≤ (ChannelRec.mk 705032706 myParamChannelName).id ∧
        (ChannelRec.mk 705032706 myParamChannelName).id ≤ 2147483646) := by
  have h := C8_channel_reduction defaultSF envW sessW dfW [(0, colA)]
    (initialConfig defaultSF envW) [] 0
  have hmem : ChannelRec.mk 705032706 myParamChannelName
      ∈ (buildMissing defaultSF envW sessW dfW [(0, colA)]
          (initialConfig defaultSF envW, [], 0)).1.channels := by decide
  exact ⟨hmem, h.1 _ hmem⟩

/-- C7: on export, if the session has no lap, exactly one lap is added,
timed at the first (earliest) timestamp of the sorted table (encoded in
the session time base as nanoseconds since that day's midnight), with
lap number the Lap column value at that first timestamp when a Lap
column exists and 1 otherwise; a session that already has laps gets
none. -/
theorem C7_lap_insertion (sf : SFState) (env : EngineEnv) (df : DF) (session : Session)
    (r0 : Int × List (Option Int)) (rest : List (Int × List (Option Int))) (lapv : Int)
    (hrows : (prepDF df).rows = r0 :: rest)
    (hlap : lapNumberAt (prepDF df) r0.1 = .ok lapv) :
    (session.laps = [] →
      (to_atlas_session sf env .datetime df session).1.laps
        = [{ time := tod r0.1, num := lapv, name := lapNameOf lapv }]) ∧
    (session.laps ≠ [] →
      (to_atlas_session sf env .datetime df session).1.laps = session.laps) ∧
    (∀ q ∈ df.rows, r0.1 ≤ q.1) ∧
    (List.indexOf? lapColName (prepDF df).colNames = none → lapv = 1) ∧
    (∀ j vs, List.indexOf? lapColName (prepDF df).colNames = some j →
      locRows (prepDF df) r0.1 = [vs] → vs.getD j none = some lapv) := by
  have hexp : to_atlas_session sf env .datetime df session
      = exportCore sf env (prepDF df) (if session.laps.length = 0
        then { session with laps := session.laps ++
          [{ time := tod r0.1, num := lapv, name := lapNameOf lapv }] }
        else session) := by
    show exportPrepped sf env (prepDF df) session = _
    exact exportPrepped_eq sf env (prepDF df) session r0 rest lapv hrows hlap
  refine ⟨?_, ?_, prepDF_head_min df r0 rest hrows, ?_, ?_⟩
  · intro hemp
    rw [hexp, exportCore_laps]
    rw [if_pos (by rw [hemp]; rfl)]
    rw [hemp]
    rfl
  · intro hne
    rw [hexp, exportCore_laps]
    rw [if_neg]
    intro hlen
    exact hne (List.length_eq_zero.mp hlen)
  · intro hnone
    unfold lapNumberAt at hlap
    rw [hnone] at hlap
    cases hlap
    rfl
  · intro j vs hj hloc
    unfold lapNumberAt at hlap
    rw [hj, hloc] at hlap
    have hlap2 : (match vs.getD j none with
        | some v => (Except.ok v : Except PyErr Int)
        | none => Except.error PyErr.valueError) = Except.ok lapv := hlap
    cases hgd : vs.getD j none with
    | some v =>
      rw [hgd] at hlap2
      cases hlap2
      rfl
    | none =>
      rw [hgd] at hlap2
      cases hlap2

/-- C7 witness: exporting the two-row table into a lapless session adds
the single lap (time 0: midnight of the first timestamp day, number 1);
a session with one lap is left with exactly that lap. -/
theorem C7_lap_insertion_witness :
    (to_atlas_session defaultSF envW .datetime dfW sessW).1.laps
      = [{ time := 0, num := 1, name := lapNameOf 1 }] ∧
    (to_atlas_session defaultSF envW .datetime dfW
        { sessW with laps := [{ time := 5, num := 2, name := lapNameOf 2 }] }).1.laps
      = [{ time := 5, num := 2, name := lapNameOf 2 }] := by
  have h := C7_lap_insertion defaultSF envW dfW sessW
    (86400000000000, [some 3]) [(86400000000001, [some 4])] 1 (by decide) (by decide)
  have h2 := C7_lap_insertion defaultSF envW dfW
    { sessW with laps := [{ time := 5, num := 2, name := lapNameOf 2 }] }
    (86400000000000, [some 3]) [(86400000000001, [some 4])] 1 (by decide) (by decide)
  constructor
  · have := h.1 rfl
    rw [this]
    rfl
  · exact h2.2.1 (by intro hc; cases hc)

/-- C6: when config.Commit() raises
ConfigurationSetAlreadyExistsException, to_atlas_session does not
propagate it: the exception is caught and logged, the configuration
identifier is still activated as the session logging configuration
(line 274 runs after the except clause), and the export proceeds to
resolve channel ids and attempt one data write per column. -/
theorem C6_duplicate_commit_recovery (sf : SFState) (env : EngineEnv) (df : DF)
    (session : Session) (r0 : Int × List (Option Int)) (rest : List (Int × List (Option Int)))
    (lapv : Int) (c0 : String)
    (hrows : (prepDF df).rows = r0 :: rest)
    (hlap : lapNumberAt (prepDF df) r0.1 = .ok lapv)
    (hco : env.commitOutcome = .alreadyExists)
    (hc0 : c0 ∈ (prepDF df).colNames)
    (hmiss : containsParameter session (paramIdent c0 sf.ApplicationGroupName) = false) :
    ∃ res, (to_atlas_session sf env .datetime df session).2 = .ok res ∧
      (to_atlas_session sf env .datetime df session).1.loggingConfig = some env.configToken ∧
      (to_atlas_session sf env .datetime df session).1.rowData.length + res.writeFailures.length
        = session.rowData.length + (prepDF df).colNames.length := by
  have hexp : to_atlas_session sf env .datetime df session
      = exportCore sf env (prepDF df) (if session.laps.length = 0
        then { session with laps := session.laps ++
          [{ time := tod r0.1, num := lapv, name := lapNameOf lapv }] }
        else session) := by
    show exportPrepped sf env (prepDF df) session = _
    exact exportPrepped_eq sf env (prepDF df) session r0 rest lapv hrows hlap
  set s1 : Session := (if session.laps.length = 0
    then { session with laps := session.laps ++
      [{ time := tod r0.1, num := lapv, name := lapNameOf lapv }] }
    else session) with hs1
  have hparams1 : s1.params = session.params := by
    rw [hs1]
    by_cases h : session.laps.length = 0
    · rw [if_pos h]
    · rw [if_neg h]
  have hrow1 : s1.rowData = session.rowData := by
    rw [hs1]
    by_cases h : session.laps.length = 0
    · rw [if_pos h]
    · rw [if_neg h]
  have hneed : ((prepDF df).colNames.any
      (fun c => !containsParameter s1 (paramIdent c sf.ApplicationGroupName))) = true := by
    rw [List.any_eq_true]
    refine ⟨c0, hc0, ?_⟩
    have heqc : containsParameter s1 (paramIdent c0 sf.ApplicationGroupName)
        = containsParameter session (paramIdent c0 sf.ApplicationGroupName) := by
      unfold containsParameter
      rw [hparams1]
    rw [heqc, hmiss]
    rfl
  have hdup := exportCore_dup_eq sf env (prepDF df) s1 hneed hco
  rw [hexp, hdup]
  refine ⟨_, rfl, ?_, ?_⟩
  · show (writeCols (prepDF df) (dupM2 sf env (prepDF df) s1)
        (prepDF df).colNames.enum (dupS3 sf env (prepDF df) s1) []).1.loggingConfig
      = some env.configToken
    rw [(writeCols_state _ _ _ _ _).2.2]
    show some (builtState sf env (prepDF df) s1).1.identifier = some env.configToken
    unfold builtState
    rw [buildMissing_identifier]
  · show (writeCols (prepDF df) (dupM2 sf env (prepDF df) s1)
          (prepDF df).colNames.enum (dupS3 sf env (prepDF df) s1) []).1.rowData.length
        + (writeCols (prepDF df) (dupM2 sf env (prepDF df) s1)
          (prepDF df).colNames.enum (dupS3 sf env (prepDF df) s1) []).2.length
      = session.rowData.length + (prepDF df).colNames.length
    have hcnt := writeCols_count (prepDF df) (dupM2 sf env (prepDF df) s1)
      (prepDF df).colNames.enum (dupS3 sf env (prepDF df) s1) []
    have hrow3 : (dupS3 sf env (prepDF df) s1).rowData = session.rowData := by
      show s1.rowData = session.rowData
      exact hrow1
    rw [hrow3] at hcnt
    rw [hcnt]
    have hlen : (prepDF df).colNames.enum.length = (prepDF df).colNames.length :=
      List.enum_length
    rw [hlen]
    simp

/-- C6 witness: exporting the one-column table into an empty session
with a colliding configuration identifier still returns normally, sets
the logging configuration to the random token and performs the write. -/
theorem C6_duplicate_commit_recovery_witness :
    ∃ res, (to_atlas_session defaultSF
        { reserveIds := fun k => 5000000000 + (k : Int),
          commitOutcome := .alreadyExists, configToken := "00abc" }
        .datetime dfW sessW).2 = .ok res ∧
      (to_atlas_session defaultSF
        { reserveIds := fun k => 5000000000 + (k : Int),
          commitOutcome := .alreadyExists, configToken := "00abc" }
        .datetime dfW sessW).1.loggingConfig = some "00abc" ∧
      (to_atlas_session defaultSF
        { reserveIds := fun k => 5000000000 + (k : Int),
          commitOutcome := .alreadyExists, configToken := "00abc" }
        .datetime dfW sessW).1.rowData.length + res.writeFailures.length
        = sessW.rowData.length + (prepDF dfW).colNames.length := by
  exact C6_duplicate_commit_recovery defaultSF
    { reserveIds := fun k => 5000000000 + (k : Int),
      commitOutcome := .alreadyExists, configToken := "00abc" }
    dfW sessW (86400000000000, [some 3]) [(86400000000001, [some 4])] 1 colA
    (by decide) (by decide) rfl (by decide) (by decide)

/-- C4: after a completed export (normal return, configuration commit
succeeded), a second export of the same table into the same session
under the same application group finds every column parameter already
present: it creates no new ConfigurationSet and makes no
ReserveNextAvailableRowChannelId call. -/
theorem C4_idempotent_config (sf : SFState) (env1 env2 : EngineEnv) (df : DF)
    (session s1out : Session) (res1 : ExportResult)
    (h1 : to_atlas_session sf env1 .datetime df session = (s1out, .ok res1))
    (hsucc : env1.commitOutcome = .success) :
    ∃ s2out res2, to_atlas_session sf env2 .datetime df s1out = (s2out, .ok res2) ∧
      res2.configCreated = none ∧ res2.reservations = 0 := by
  have h1' : exportPrepped sf env1 (prepDF df) session = (s1out, .ok res1) := h1
  cases hr : (prepDF df).rows with
  | nil =>
    have hbad : exportPrepped sf env1 (prepDF df) session = (session, .error .indexError) := by
      unfold exportPrepped
      rw [hr]
    rw [hbad] at h1'
    simp at h1'
  | cons r0 rest =>
    cases hlap : lapNumberAt (prepDF df) r0.1 with
    | error e =>
      have hbad : exportPrepped sf env1 (prepDF df) session = (session, .error e) := by
        unfold exportPrepped
        rw [hr]
        simp only [timestamp2longScalar_self, hlap]
      rw [hbad] at h1'
      simp at h1'
    | ok lapv =>
      have hexp1 : exportPrepped sf env1 (prepDF df) session
          = exportCore sf env1 (prepDF df) (if session.laps.length = 0
            then { session with laps := session.laps ++
              [{ time := tod r0.1, num := lapv, name := lapNameOf lapv }] }
            else session) :=
        exportPrepped_eq sf env1 (prepDF df) session r0 rest lapv hr hlap
      rw [hexp1] at h1'
      have hs1out : (exportCore sf env1 (prepDF df) (if session.laps.length = 0
          then { session with laps := session.laps ++
            [{ time := tod r0.1, num := lapv, name := lapNameOf lapv }] }
          else session)).1 = s1out := by
        rw [h1']
      have hcontains : ∀ c ∈ (prepDF df).colNames,
          containsParameter s1out (paramIdent c sf.ApplicationGroupName) = true := by
        intro c hc
        rw [← hs1out]
        exact exportCore_success_contains sf env1 (prepDF df) _ hsucc c hc
      have hexp2 : to_atlas_session sf env2 .datetime df s1out
          = exportCore sf env2 (prepDF df) (if s1out.laps.length = 0
            then { s1out with laps := s1out.laps ++
              [{ time := tod r0.1, num := lapv, name := lapNameOf lapv }] }
            else s1out) := by
        show exportPrepped sf env2 (prepDF df) s1out = _
        exact exportPrepped_eq sf env2 (prepDF df) s1out r0 rest lapv hr hlap
      set s1b : Session := (if s1out.laps.length = 0
        then { s1out with laps := s1out.laps ++
          [{ time := tod r0.1, num := lapv, name := lapNameOf lapv }] }
        else s1out) with hs1b
      have hparamsb : s1b.params = s1out.params := by
        rw [hs1b]
        by_cases h : s1out.laps.length = 0
        · rw [if_pos h]
        · rw [if_neg h]
      have hneed2 : ((prepDF df).colNames.any
          (fun c => !containsParameter s1b (paramIdent c sf.ApplicationGroupName))) = false := by
        rw [List.any_eq_false]
        intro c hc
        have heqc : containsParameter s1b (paramIdent c sf.ApplicationGroupName)
            = containsParameter s1out (paramIdent c sf.ApplicationGroupName) := by
          unfold containsParameter
          rw [hparamsb]
        rw [heqc, hcontains c hc]
        simp
      have hfinal := exportCore_not_needed sf env2 (prepDF df) s1b hneed2
      rw [hexp2, hfinal]
      exact ⟨_, _, rfl, rfl, rfl⟩

/-- C4 witness: exporting the concrete table twice; the second run
creates nothing and reserves nothing. -/
theorem C4_idempotent_config_witness :
    ∃ s2out res2, to_atlas_session defaultSF envW .datetime dfW
        (to_atlas_session defaultSF envW .datetime dfW sessW).1 = (s2out, .ok res2) ∧
      res2.configCreated = none ∧ res2.reservations = 0 := by
  have hrun : to_atlas_session defaultSF envW .datetime dfW sessW
      = ((to_atlas_session defaultSF envW .datetime dfW sessW).1,
         .ok { configCreated := some (builtState defaultSF envW (prepDF dfW)
                 { sessW with laps := [{ time := 0, num := 1, name := lapNameOf 1 }] }).1
               reservations := 1
               mapping := [(colA, 705032706)]
               writeFailures := [] }) := by decide
  exact C4_idempotent_config defaultSF envW envW dfW sessW
    (to_atlas_session defaultSF envW .datetime dfW sessW).1 _ hrun rfl

theorem containsParameter_of_getParameter (s : Session) (pid : String) (p : ParamEntry)
    (h : getParameter s pid = some p) : containsParameter s pid = true := by
  unfold getParameter at h
  unfold containsParameter
  rw [List.any_eq_true]
  refine ⟨p, List.mem_of_find?_eq_some h, ?_⟩
  have h2 := List.find?_some h
  simpa using h2

theorem getParameter_none_of_not_contains (s : Session) (pid : String)
    (h : containsParameter s pid = false) : getParameter s pid = none := by
  unfold containsParameter at h
  unfold getParameter
  rw [List.find?_eq_none]
  rw [List.any_eq_false] at h
  intro x hx
  exact h x hx

/-- A column write succeeds with the exact encoded offsets when the
channel id resolves and the series timestamps stay within the first
element's encodable window. -/
theorem colOutcome_ok (df : DF) (m : List (String × Int)) (j : Nat) (c : String) (cid : Int)
    (p0 : Int × Int) (ps : List (Int × Int))
    (hag : aget m c = some cid)
    (hser : seriesOf df j = p0 :: ps)
    (hall : ∀ p ∈ seriesOf df j, floorDay p0.1 ≤ p.1 ∧ p.1 - floorDay p0.1 < 2 ^ 53) :
    colOutcome df m j c = .ok
      { channelId := cid
        timestamps := (seriesOf df j).map (fun p => p.1 - floorDay p0.1)
        values := (seriesOf df j).map (fun p => p.2) } := by
  have h1 : colOutcome df m j c = add_row_data cid ((seriesOf df j).map (fun p => p.2))
      (.datetimeIndex ((seriesOf df j).map (fun p => p.1))) := by
    unfold colOutcome
    rw [hag]
  rw [h1, hser]
  have hseq : timestamp2longSeq (List.map (fun p => p.1) (p0 :: ps)) none
      = .ok ((List.map (fun p => p.1) (p0 :: ps)).map (fun t => t - floorDay p0.1)) := by
    have hmain := timestamp2longSeq_ok p0.1 (ps.map (fun p => p.1)) ?_
    · simpa using hmain
    · intro t ht
      have ht2 : t ∈ (p0 :: ps).map (fun p => p.1) := by simpa using ht
      obtain ⟨p, hp, rfl⟩ := List.mem_map.mp ht2
      rw [← hser] at hp
      exact hall p hp
  have h2 : add_row_data cid (List.map (fun p => p.2) (p0 :: ps))
      (.datetimeIndex (List.map (fun p => p.1) (p0 :: ps)))
      = match timestamp2longSeq (List.map (fun p => p.1) (p0 :: ps)) none with
        | .error e => .error e
        | .ok enc => .ok { channelId := cid, timestamps := enc,
                           values := List.map (fun p => p.2) (p0 :: ps) } := rfl
  rw [h2, hseq]
  simp [List.map_map, Function.comp]

/-- The session state right after a successful Commit: committed
parameters are visible. -/
def sucS2 (sf : SFState) (env : EngineEnv) (df : DF) (s1 : Session) : Session :=
  { s1 with params := s1.params ++ List.map (fun p => ParamEntry.mk p.identifier p.channelIds) (builtState sf env df s1).1.parameters }

/-- The session after UseLoggingConfigurationSet in the success case. -/
def sucS3 (sf : SFState) (env : EngineEnv) (df : DF) (s1 : Session) : Session :=
  { sucS2 sf env df s1 with loggingConfig := some (builtState sf env df s1).1.identifier }

/-- The resolved channel dictionary in the success case. -/
def sucM2 (sf : SFState) (env : EngineEnv) (df : DF) (s1 : Session) : List (String × Int) :=
  resolveChannels sf (sucS3 sf env df s1) (builtState sf env df s1).2.1 df.colNames

theorem exportCore_success_eq (sf : SFState) (env : EngineEnv) (df : DF) (s1 : Session)
    (hneed : (df.colNames.any
      (fun c => !containsParameter s1 (paramIdent c sf.ApplicationGroupName))) = true)
    (hco : env.commitOutcome = .success) :
    exportCore sf env df s1 =
      ((writeCols df (sucM2 sf env df s1) df.colNames.enum (sucS3 sf env df s1) []).1,
       .ok { configCreated := some (builtState sf env df s1).1
             reservations := (builtState sf env df s1).2.2
             mapping := sucM2 sf env df s1
             writeFailures :=
               (writeCols df (sucM2 sf env df s1) df.colNames.enum (sucS3 sf env df s1) []).2 }) := by
  unfold exportCore sucM2 sucS3 sucS2 builtState
  rw [if_pos hneed]
  simp only [commitConfig, hco]

theorem resolveChannels_nil (sf : SFState) (s : Session) (m : List (String × Int)) :
    resolveChannels sf s m [] = m := rfl

theorem resolveChannels_cons_some (sf : SFState) (s : Session) (m : List (String × Int))
    (c : String) (rest : List String) (p : ParamEntry)
    (h : getParameter s (paramIdent c sf.ApplicationGroupName) = some p) :
    resolveChannels sf s m (c :: rest)
      = resolveChannels sf s (aset m c (p.channels.headD 0)) rest := by
  show (match getParameter s (paramIdent c sf.ApplicationGroupName) with
    | none => resolveChannels sf s m rest
    | some p => resolveChannels sf s (aset m c (p.channels.headD 0)) rest) = _
  rw [h]

theorem writeCols_nil (df : DF) (m : List (String × Int)) (s : Session)
    (fs : List (String × PyErr)) : writeCols df m [] s fs = (s, fs) := rfl

theorem writeCols_cons_ok (df : DF) (m : List (String × Int)) (j : Nat) (c : String)
    (rest : List (Nat × String)) (s : Session) (fs : List (String × PyErr)) (w : RowWrite)
    (h : colOutcome df m j c = .ok w) :
    writeCols df m ((j, c) :: rest) s fs
      = writeCols df m rest { s with rowData := s.rowData ++ [w] } fs := by
  show (match colOutcome df m j c with
    | .error e => writeCols df m rest s (fs ++ [(c, e)])
    | .ok w => writeCols df m rest { s with rowData := s.rowData ++ [w] } fs) = _
  rw [h]


/-- C5: exporting a two-column table [a, b] under application group G
into a session that already declares a:G (with a single channel cidA)
and not b:G reserves exactly one channel id, declares exactly one new
channel descriptor and one new parameter descriptor - for b:G - and
writes column a to the channel id resolved from the existing session
parameter a:G while column b goes to the freshly reserved (reduced)
id. -/
theorem C5_partial_novelty
    (sf : SFState) (env : EngineEnv) (df : DF) (session : Session)
    (a b : String) (cidA : Int) (pA : ParamEntry)
    (r0 : Int × List (Option Int)) (rest : List (Int × List (Option Int))) (lapv : Int)
    (pa0 pb0 : Int × Int) (psa psb : List (Int × Int))
    (hcols : (prepDF df).colNames = [a, b])
    (hab : a ≠ b)
    (hrows : (prepDF df).rows = r0 :: rest)
    (hlap : lapNumberAt (prepDF df) r0.1 = .ok lapv)
    (hsucc : env.commitOutcome = .success)
    (hgetA : getParameter session (paramIdent a sf.ApplicationGroupName) = some pA)
    (hchA : pA.channels = [cidA])
    (hnB : containsParameter session (paramIdent b sf.ApplicationGroupName) = false)
    (hserA : seriesOf (prepDF df) 0 = pa0 :: psa)
    (hallA : ∀ p ∈ seriesOf (prepDF df) 0, floorDay pa0.1 ≤ p.1 ∧ p.1 - floorDay pa0.1 < 2 ^ 53)
    (hserB : seriesOf (prepDF df) 1 = pb0 :: psb)
    (hallB : ∀ p ∈ seriesOf (prepDF df) 1, floorDay pb0.1 ≤ p.1 ∧ p.1 - floorDay pb0.1 < 2 ^ 53) :
    ∃ s' res, to_atlas_session sf env .datetime df session = (s', .ok res) ∧
      res.reservations = 1 ∧
      (∃ cs, res.configCreated = some cs ∧
        cs.channels = [{ id := env.reserveIds 0 % 2147483647, name := myParamChannelName }] ∧
        cs.parameters.map (fun p => p.identifier) = [paramIdent b sf.ApplicationGroupName]) ∧
      s'.rowData = session.rowData ++
        [{ channelId := cidA
           timestamps := (seriesOf (prepDF df) 0).map (fun p => p.1 - floorDay pa0.1)
           values := (seriesOf (prepDF df) 0).map (fun p => p.2) },
         { channelId := env.reserveIds 0 % 2147483647
           timestamps := (seriesOf (prepDF df) 1).map (fun p => p.1 - floorDay pb0.1)
           values := (seriesOf (prepDF df) 1).map (fun p => p.2) }] := by
  have hexp : to_atlas_session sf env .datetime df session
      = exportCore sf env (prepDF df) (if session.laps.length = 0
        then { session with laps := session.laps ++
          [{ time := tod r0.1, num := lapv, name := lapNameOf lapv }] }
        else session) := by
    show exportPrepped sf env (prepDF df) session = _
    exact exportPrepped_eq sf env (prepDF df) session r0 rest lapv hrows hlap
  set s1 : Session := (if session.laps.length = 0
    then { session with laps := session.laps ++
      [{ time := tod r0.1, num := lapv, name := lapNameOf lapv }] }
    else session) with hs1
  have hparams1 : s1.params = session.params := by
    rw [hs1]
    by_cases h : session.laps.length = 0
    · rw [if_pos h]
    · rw [if_neg h]
  have hrow1 : s1.rowData = session.rowData := by
    rw [hs1]
    by_cases h : session.laps.length = 0
    · rw [if_pos h]
    · rw [if_neg h]
  have hcontA1 : containsParameter s1 (paramIdent a sf.ApplicationGroupName) = true := by
    have := containsParameter_of_getParameter session _ pA hgetA
    unfold containsParameter at this ⊢
    rw [hparams1]
    exact this
  have hcontB1 : containsParameter s1 (paramIdent b sf.ApplicationGroupName) = false := by
    unfold containsParameter at hnB ⊢
    rw [hparams1]
    exact hnB
  have hneed : ((prepDF df).colNames.any
      (fun c => !containsParameter s1 (paramIdent c sf.ApplicationGroupName))) = true := by
    rw [hcols]
    simp [hcontB1]
  have hcore := exportCore_success_eq sf env (prepDF df) s1 hneed hsucc
  -- the creation loop: a is skipped, b gets the single reservation
  have henum : (prepDF df).colNames.enum = [(0, a), (1, b)] := by
    rw [hcols]
    rfl
  have hnotB : ¬ containsParameter s1 (paramIdent b sf.ApplicationGroupName) = true := by
    rw [hcontB1]
    exact Bool.false_ne_true
  have hbuilt : builtState sf env (prepDF df) s1 =
      ({ initialConfig sf env with
           channels := [newChannelRec env 0]
           parameters := [newParamRec sf env (prepDF df) 1 b 0] },
       [(b, reservedChannelId env 0)], 1) := by
    unfold builtState
    rw [henum]
    rw [buildMissing, if_pos hcontA1, buildMissing, if_neg hnotB, buildMissing]
    simp [aset, initialConfig]
  have hS3params : (sucS3 sf env (prepDF df) s1).params
      = session.params ++ [ParamEntry.mk (paramIdent b sf.ApplicationGroupName)
          [reservedChannelId env 0]] := by
    unfold sucS3 sucS2
    rw [hbuilt, hparams1]
    simp [newParamRec]
  have hrow3 : (sucS3 sf env (prepDF df) s1).rowData = session.rowData := hrow1
  have hget3A : getParameter (sucS3 sf env (prepDF df) s1)
      (paramIdent a sf.ApplicationGroupName) = some pA := by
    unfold getParameter
    rw [hS3params, List.find?_append]
    unfold getParameter at hgetA
    rw [hgetA]
    rfl
  have hget3B : getParameter (sucS3 sf env (prepDF df) s1)
      (paramIdent b sf.ApplicationGroupName)
      = some (ParamEntry.mk (paramIdent b sf.ApplicationGroupName)
          [reservedChannelId env 0]) := by
    unfold getParameter
    rw [hS3params, List.find?_append]
    have hnone := getParameter_none_of_not_contains session _ hnB
    unfold getParameter at hnone
    rw [hnone]
    simp
  have hres1 := resolveChannels_cons_some sf (sucS3 sf env (prepDF df) s1)
    [(b, reservedChannelId env 0)] a [b] pA hget3A
  have hres2 := resolveChannels_cons_some sf (sucS3 sf env (prepDF df) s1)
    (aset [(b, reservedChannelId env 0)] a (pA.channels.headD 0)) b []
    (ParamEntry.mk (paramIdent b sf.ApplicationGroupName) [reservedChannelId env 0]) hget3B
  have hm2 : sucM2 sf env (prepDF df) s1 = [(a, cidA), (b, reservedChannelId env 0)] := by
    unfold sucM2
    rw [hcols]
    have hproj : (builtState sf env (prepDF df) s1).2.1 = [(b, reservedChannelId env 0)] := by
      rw [hbuilt]
    rw [hproj, hres1, hres2, resolveChannels_nil, hchA]
    simp [aset, hab, Ne.symm hab]
  have hagA : aget [(a, cidA), (b, reservedChannelId env 0)] a = some cidA := by
    simp [aget]
  have hagB : aget [(a, cidA), (b, reservedChannelId env 0)] b
      = some (reservedChannelId env 0) := by
    simp [aget, hab, Ne.symm hab]
  have houtA := colOutcome_ok (prepDF df) [(a, cidA), (b, reservedChannelId env 0)]
    0 a cidA pa0 psa hagA hserA hallA
  have houtB := colOutcome_ok (prepDF df) [(a, cidA), (b, reservedChannelId env 0)]
    1 b (reservedChannelId env 0) pb0 psb hagB hserB hallB
  set wA : RowWrite :=
    { channelId := cidA
      timestamps := (seriesOf (prepDF df) 0).map (fun p => p.1 - floorDay pa0.1)
      values := (seriesOf (prepDF df) 0).map (fun p => p.2) } with hwA
  set wB : RowWrite :=
    { channelId := reservedChannelId env 0
      timestamps := (seriesOf (prepDF df) 1).map (fun p => p.1 - floorDay pb0.1)
      values := (seriesOf (prepDF df) 1).map (fun p => p.2) } with hwB
  have hw1 := writeCols_cons_ok (prepDF df) [(a, cidA), (b, reservedChannelId env 0)]
    0 a [(1, b)] (sucS3 sf env (prepDF df) s1) [] wA houtA
  have hw2a := writeCols_cons_ok (prepDF df) [(a, cidA), (b, reservedChannelId env 0)]
    1 b [] { sucS3 sf env (prepDF df) s1 with
      rowData := (sucS3 sf env (prepDF df) s1).rowData ++ [wA] } [] wB houtB
  have hw2 : writeCols (prepDF df) [(a, cidA), (b, reservedChannelId env 0)]
      [(1, b)] { sucS3 sf env (prepDF df) s1 with
        rowData := (sucS3 sf env (prepDF df) s1).rowData ++ [wA] } []
      = ({ sucS3 sf env (prepDF df) s1 with
          rowData := ((sucS3 sf env (prepDF df) s1).rowData ++ [wA]) ++ [wB] }, []) := by
    rw [hw2a, writeCols_nil]
  rw [hexp, hcore, hm2, henum, hw1, hw2]
  refine ⟨_, _, rfl, ?_, ?_, ?_⟩
  · show (builtState sf env (prepDF df) s1).2.2 = 1
    rw [hbuilt]
  · refine ⟨(builtState sf env (prepDF df) s1).1, rfl, ?_, ?_⟩
    · rw [hbuilt]
      simp [newChannelRec, reservedChannelId]
    · rw [hbuilt]
      simp [newParamRec]
  · show ((sucS3 sf env (prepDF df) s1).rowData ++ [wA]) ++ [wB]
        = session.rowData ++ [wA, wB]
    rw [hrow3]
    simp

/-- Concrete two-column table for the partial-novelty witness. -/
def dfW2 : DF :=
  { colNames := [colA, colB]
    rows := [(86400000000000, [some 3, some 5]), (86400000000001, [some 4, some 6])] }

/-- Session that already declares A:MyApp on channel 7. -/
def sessW2 : Session :=
  { laps := []
    params := [ParamEntry.mk (paramIdent colA defaultSF.ApplicationGroupName) [7]]
    loggingConfig := none
    rowData := [] }

/-- C5 witness: the concrete export reserves one channel, declares only
B:MyApp, writes A to the pre-existing channel 7 and B to
5000000000 % 2147483647. -/
theorem C5_partial_novelty_witness :
    ∃ s' res, to_atlas_session defaultSF envW .datetime dfW2 sessW2 = (s', .ok res) ∧
      res.reservations = 1 ∧
      (∃ cs, res.configCreated = some cs ∧
        cs.channels = [{ id := envW.reserveIds 0 % 2147483647, name := myParamChannelName }] ∧
        cs.parameters.map (fun p => p.identifier)
          = [paramIdent colB defaultSF.ApplicationGroupName]) ∧
      s'.rowData = sessW2.rowData ++
        [{ channelId := 7
           timestamps := (seriesOf (prepDF dfW2) 0).map
             (fun p => p.1 - floorDay (86400000000000 : Int))
           values := (seriesOf (prepDF dfW2) 0).map (fun p => p.2) },
         { channelId := envW.reserveIds 0 % 2147483647
           timestamps := (seriesOf (prepDF dfW2) 1).map
             (fun p => p.1 - floorDay (86400000000000 : Int))
           values := (seriesOf (prepDF dfW2) 1).map (fun p => p.2) }] := by
  exact C5_partial_novelty defaultSF envW dfW2 sessW2 colA colB 7
    (ParamEntry.mk (paramIdent colA defaultSF.ApplicationGroupName) [7])
    (86400000000000, [some 3, some 5]) [(86400000000001, [some 4, some 6])] 1
    (86400000000000, 3) (86400000000000, 5)
    [(86400000000001, 4)] [(86400000000001, 6)]
    (by decide) (by decide) (by decide) (by decide) rfl (by decide) rfl (by decide)
    (by decide) (by decide) (by decide) (by decide)
